import Mathlib

/-!
Verification of the job-runner client services layer.

This file shallowly embeds the two source files of the repository:

* `services.js` — the `dtformat` value (duration/date formatting built on
  moment.js) and the `globalState` factory (a cache-backed facade over the
  remote Project/Job/JobTemplate/Worker/Run resources, keyed by project id,
  together with the `globalCache` key-value cache).
* the unnamed module-configuration file — the `$routeProvider` route table.

Conventions of the embedding:

* JavaScript `null` is `Option.none`; a timestamp is its epoch-millisecond
  value (an `Int`), since moment's parsing of the wire format is external
  to this repository.
* moment durations are created here only from a millisecond difference,
  so the component breakdown (`bubble` in moment.js) starts from
  `_days = 0, _months = 0` and uses JavaScript truncating division and
  remainder, i.e. `Int.tdiv` / `Int.tmod`.
* The `$http`-backed resources are asynchronous; remote responses are an
  oracle (`Server`).  Issued requests and cache stores are made explicit so
  that ordering and at-most-once claims are statable.
-/

namespace JobRunner

/-! ## dtformat (services.js lines 3-35) -/

/-- Milliseconds of the moment duration `end.diff(start)`. -/
def durMs (startMs endMs : Int) : Int := endMs - startMs

/-- Total whole seconds of a duration, `absFloor(milliseconds / 1000)` in
moment's `bubble`.  JavaScript `absFloor` truncates toward zero. -/
def durSecondsTotal (ms : Int) : Int := Int.tdiv ms 1000

/-- `duration.seconds()`: the seconds component. -/
def durSeconds (ms : Int) : Int := Int.tmod (durSecondsTotal ms) 60

/-- Total whole minutes of a duration. -/
def durMinutesTotal (ms : Int) : Int := Int.tdiv (durSecondsTotal ms) 60

/-- `duration.minutes()`: the minutes component. -/
def durMinutes (ms : Int) : Int := Int.tmod (durMinutesTotal ms) 60

/-- Total whole hours of a duration. -/
def durHoursTotal (ms : Int) : Int := Int.tdiv (durMinutesTotal ms) 60

/-- `duration.hours()`: the hours component. -/
def durHours (ms : Int) : Int := Int.tmod (durHoursTotal ms) 24

/-- Days of the duration before moment extracts approximate months
(`days += absFloor(hours / 24)` with `_days = 0`). -/
def durDaysBeforeMonths (ms : Int) : Int := Int.tdiv (durHoursTotal ms) 24

/-- `monthsFromDays = absFloor(daysToMonths(days))` where
`daysToMonths d = d * 4800 / 146097`. -/
def durMonthsFromDays (ms : Int) : Int :=
  Int.tdiv (durDaysBeforeMonths ms * 4800) 146097

/-- `duration.days()`: the day component after months are extracted,
`days -= absFloor(monthsToDays(monthsFromDays))` where
`monthsToDays m = m * 146097 / 4800`. -/
def durDays (ms : Int) : Int :=
  durDaysBeforeMonths ms - Int.tdiv (durMonthsFromDays ms * 146097) 4800

/-- `duration.months()`: the month component, `months % 12`. -/
def durMonths (ms : Int) : Int := Int.tmod (durMonthsFromDays ms) 12

/-- `duration.years()`: the year component, `absFloor(months / 12)`. -/
def durYears (ms : Int) : Int := Int.tdiv (durMonthsFromDays ms) 12

/-- `dtformat.formatDuration` (services.js lines 4-12): `undefined` when a
bound is `null`, otherwise the `'Dd, Hh, Mmin, Ssec '` string. -/
def formatDuration (startDts endDts : Option Int) : Option String :=
  match startDts, endDts with
  | some s, some e =>
    some (toString (durDays (durMs s e)) ++ "d, "
      ++ toString (durHours (durMs s e)) ++ "h, "
      ++ toString (durMinutes (durMs s e)) ++ "min, "
      ++ toString (durSeconds (durMs s e)) ++ "sec ")
  | _, _ => none

/-- `dtformat.getDurationInSec` (services.js lines 14-27): `undefined` when a
bound is `null`, otherwise
`seconds + days*24*60*60 + hours*60*60 + minutes*60` of the components. -/
def getDurationInSec (startDts endDts : Option Int) : Option Int :=
  match startDts, endDts with
  | some s, some e =>
    some (durSeconds (durMs s e)
      + durDays (durMs s e) * 24 * 60 * 60
      + durHours (durMs s e) * 60 * 60
      + durMinutes (durMs s e) * 60)
  | _, _ => none

/-- Two-digit zero padding, as in moment's `MM`, `DD`, `HH`, `mm`, `ss`. -/
def pad2 (n : Nat) : String :=
  if n < 10 then "0" ++ toString n else toString n

/-- Civil date from a day number relative to 1970-01-01 (proleptic
Gregorian); the standard era-based conversion used to model
`moment(x).format` on an epoch instant. -/
def civilFromDays (z : Int) : Int × Nat × Nat :=
  let z' := z + 719468
  let era := Int.ediv z' 146097
  let doe := (z' - era * 146097).toNat
  let yoe := (doe - doe / 1460 + doe / 36524 - doe / 146096) / 365
  let doy := doe - (365 * yoe + yoe / 4 - yoe / 100)
  let mp := (5 * doy + 2) / 153
  let d := doy - (153 * mp + 2) / 5 + 1
  let m := if mp < 10 then mp + 3 else mp - 9
  (((yoe : Int) + era * 400) + (if m ≤ 2 then 1 else 0), m, d)

/-- `dtformat.formatDateTime` (services.js lines 29-33): `undefined` when the
argument is `null`, otherwise the `'YYYY-MM-DD HH:mm:ss'` rendering of the
instant. -/
def formatDateTime (dateTimeString : Option Int) : Option String :=
  match dateTimeString with
  | none => none
  | some ms =>
    let day := Int.ediv ms 86400000
    let msOfDay := (Int.emod ms 86400000).toNat
    let secOfDay := msOfDay / 1000
    let c := civilFromDays day
    some (toString c.1 ++ "-" ++ pad2 c.2.1 ++ "-" ++ pad2 c.2.2 ++ " "
      ++ pad2 (secOfDay / 3600) ++ ":" ++ pad2 (secOfDay % 3600 / 60) ++ ":"
      ++ pad2 (secOfDay % 60))

/-! ## Resource and state model (services.js lines 37-179) -/

/-- A remote Job resource: an id plus the rest of the server-owned payload,
abstracted to a single field. -/
structure Job where
  id : Nat
  payload : Nat
deriving DecidableEq

/-- A remote JobTemplate resource. -/
structure JobTemplate where
  id : Nat
  payload : Nat
deriving DecidableEq

/-- A remote Worker resource. -/
structure Worker where
  id : Nat
  payload : Nat
deriving DecidableEq

/-- A remote Project resource. -/
structure Project where
  id : Nat
  payload : Nat
deriving DecidableEq

/-- A remote Run resource. -/
structure Run where
  id : Nat
  payload : Nat
deriving DecidableEq

/-- A project id as it arrives from the route layer: a string.  JavaScript
treats the empty string (and `null`, modelled as `Option.none`) as falsy. -/
abbrev PId := String

/-- Values stored in `globalCache` by this code: single resources or whole
resource lists of the three cached categories. -/
inductive CVal where
  | job (j : Job)
  | jobList (l : List Job)
  | jobTemplate (t : JobTemplate)
  | jobTemplateList (l : List JobTemplate)
  | worker (w : Worker)
  | workerList (l : List Worker)
deriving DecidableEq

/-- The `$cacheFactory` cache `globalCache`: a keyed store. -/
abbrev Cache := List (String × CVal)

/-- `globalCache.get(k)`. -/
def cacheGet (c : Cache) (k : String) : Option CVal :=
  (c.find? (fun e => e.1 == k)).map (fun e => e.2)

/-- `globalCache.put(k, v)`: replaces any previous entry for `k`. -/
def cachePut (c : Cache) (k : String) (v : CVal) : Cache :=
  (k, v) :: c.filter (fun e => e.1 ≠ k)

/-- The fields of `globalState.data` (services.js lines 45-55). -/
structure GlobalData where
  project : Option Project
  projectId : Option PId
  page : Option String
  jobs : Option (List Job)
  jobTab : String
  jobTemplates : Option (List JobTemplate)
  jobFilter : List (String × String)
  runs : Option (List Run)
  wsConnected : Bool
deriving DecidableEq

/-- The client state the `globalState` service closes over: its `data`
object and the `globalCache` contents. -/
structure GState where
  data : GlobalData
  cache : Cache
deriving DecidableEq

/-- The initial `globalState.data` object literal. -/
def initialData : GlobalData where
  project := none
  projectId := none
  page := none
  jobs := none
  jobTab := "details"
  jobTemplates := none
  jobFilter := []
  runs := none
  wsConnected := false

/-- The client state at service creation: initial data, empty cache. -/
def initialState : GState where
  data := initialData
  cache := []

/-- Oracle for the remote REST API: what each query would return.  The
server is an external collaborator; its responses are parameters. -/
structure Server where
  projectOf : Option PId → Project
  jobsOf : Option PId → List Job
  templatesOf : Option PId → List JobTemplate
  workersOf : Option PId → List Worker
  runsOf : String → Option PId → List Run
  completedOf : Nat → List Run

/-- A remote query as identified by its resource and parameter object. -/
inductive Req where
  | projectGet (id : Option PId)
  | jobAll (projectId : Option PId)
  | jobTemplateAll (projectId : Option PId)
  | workerAll (projectId : Option PId)
  | runAll (state : String) (projectId : Option PId)
  | runQuery (job : Nat) (limit : Nat) (state : String)
deriving DecidableEq

/-- A call site: the query it issues and which callbacks it registers.
No call site in services.js passes an error callback. -/
structure Call where
  req : Req
  hasSuccessCb : Bool
  hasErrorCb : Bool
deriving DecidableEq

/-- Query-state string `'scheduled'`. -/
def scheduledState : String := "scheduled"

/-- Query-state string `'in_queue'`. -/
def inQueueState : String := "in_queue"

/-- Query-state string `'started'`. -/
def startedState : String := "started"

/-- Query-state string `'completed'`. -/
def completedState : String := "completed"

/-- `Project.get({id: pid})` — no callbacks (services.js line 117). -/
def projectGetCall (pid : Option PId) : Call where
  req := Req.projectGet pid
  hasSuccessCb := false
  hasErrorCb := false

/-- `Job.all({project_id: pid}, succ?)` with or without a success callback
(services.js lines 85, 126, 165). -/
def jobAllCall (pid : Option PId) (succ : Bool) : Call where
  req := Req.jobAll pid
  hasSuccessCb := succ
  hasErrorCb := false

/-- `JobTemplate.all({project_id: pid}, succ?)` (services.js lines 92, 135). -/
def jobTemplateAllCall (pid : Option PId) (succ : Bool) : Call where
  req := Req.jobTemplateAll pid
  hasSuccessCb := succ
  hasErrorCb := false

/-- `Worker.all({project_id: pid}, cb)` (services.js line 99). -/
def workerAllCall (pid : Option PId) (succ : Bool) : Call where
  req := Req.workerAll pid
  hasSuccessCb := succ
  hasErrorCb := false

/-- `Run.all({state: st, project_id: pid}, cb)` (services.js lines 147-163). -/
def runAllCall (st : String) (pid : Option PId) : Call where
  req := Req.runAll st pid
  hasSuccessCb := true
  hasErrorCb := false

/-- `Run.query({job: jid, limit: 1, state: 'completed'}, cb)`
(services.js line 167). -/
def runQueryCall (jid : Nat) : Call where
  req := Req.runQuery jid 1 completedState
  hasSuccessCb := true
  hasErrorCb := false

/-! ## globalState operations -/

/-- JavaScript truthiness of the stored `data.projectId`: `null` and the
empty string are falsy. -/
def jsTruthyPid : Option PId → Bool
  | none => false
  | some s => s ≠ ""

/-- The guard `!this.data.projectId || this.data.projectId != projectId`
shared by `setProjectId` and `initialize` (services.js lines 58, 73). -/
def needsReset (pid : Option PId) (p : PId) : Bool :=
  !jsTruthyPid pid || pid != some p

/-- The reset block (services.js lines 59-66 and 74-82): set the new
project id, `globalCache.removeAll()`, and null the four data fields. -/
def resetForProject (s : GState) (p : PId) : GState where
  data :=
    { s.data with
        projectId := some p
        project := none
        jobs := none
        jobTemplates := none
        runs := none }
  cache := []

/-- `globalState.setProjectId` (services.js lines 57-68).  It issues no
remote query, hence the empty call list. -/
def setProjectId (s : GState) (p : PId) : GState × List Call :=
  if needsReset s.data.projectId p then (resetForProject s p, []) else (s, [])

/-- Cache key `'job.' + job.id`. -/
def jobKey (j : Job) : String := "job." ++ toString j.id

/-- Cache key `'jobTemplate.' + template.id`. -/
def jobTemplateKey (t : JobTemplate) : String := "jobTemplate." ++ toString t.id

/-- Cache key `'worker.' + worker.id`. -/
def workerKey (w : Worker) : String := "worker." ++ toString w.id

/-- Cache key `'job.all'`. -/
def jobAllKey : String := "job.all"

/-- Cache key `'jobTemplate.all'`. -/
def jobTemplateAllKey : String := "jobTemplate.all"

/-- Cache key `'worker.all'`. -/
def workerAllKey : String := "worker.all"

/-- `angular.forEach(l, function(a) { globalCache.put(keyOf a, wrap a) })`. -/
def putItems {α : Type} (keyOf : α → String) (wrap : α → CVal)
    (c : Cache) (l : List α) : Cache :=
  l.foldl (fun acc a => cachePut acc (keyOf a) (wrap a)) c

/-- Observable events of one `globalState` operation, in program order:
a remote query being issued, a cache store, the user callback running. -/
inductive Ev where
  | issue (c : Call)
  | put (k : String) (v : CVal)
  | cb
deriving DecidableEq

/-- The cache-store events of an `angular.forEach` put loop. -/
def putEvents {α : Type} (keyOf : α → String) (wrap : α → CVal)
    (l : List α) : List Ev :=
  l.map (fun a => Ev.put (keyOf a) (wrap a))

/-- `globalState.initialize` (services.js lines 70-111), embedded as the
event trace and resulting state of a complete invocation.  The three
fetches are chained: each response callback stores its list and only then
issues the next fetch, and the user callback runs inside the last one; since
at most one request is ever pending, the single-threaded event loop makes
the trace deterministic given the server oracle. -/
def initializeProject (s : GState) (p : PId) (srv : Server) :
    List Ev × GState :=
  if needsReset s.data.projectId p then
    let s0 := resetForProject s p
    let pid := s0.data.projectId
    let jobs := srv.jobsOf pid
    let c1 := putItems jobKey CVal.job
      (cachePut s0.cache jobAllKey (CVal.jobList jobs)) jobs
    let templates := srv.templatesOf pid
    let c2 := putItems jobTemplateKey CVal.jobTemplate
      (cachePut c1 jobTemplateAllKey (CVal.jobTemplateList templates)) templates
    let workers := srv.workersOf pid
    let c3 := putItems workerKey CVal.worker
      (cachePut c2 workerAllKey (CVal.workerList workers)) workers
    (Ev.issue (jobAllCall pid true)
        :: Ev.put jobAllKey (CVal.jobList jobs)
        :: putEvents jobKey CVal.job jobs
      ++ Ev.issue (jobTemplateAllCall pid true)
        :: Ev.put jobTemplateAllKey (CVal.jobTemplateList templates)
        :: putEvents jobTemplateKey CVal.jobTemplate templates
      ++ Ev.issue (workerAllCall pid true)
        :: Ev.put workerAllKey (CVal.workerList workers)
        :: putEvents workerKey CVal.worker workers
      ++ [Ev.cb],
     { s0 with cache := c3 })
  else
    ([Ev.cb], s)

/-- The remote calls an operation issued, extracted from its trace. -/
def callsOf (tr : List Ev) : List Call :=
  tr.filterMap (fun e =>
    match e with
    | Ev.issue c => some c
    | _ => none)

/-- `globalState.getProject` (services.js lines 113-120): returns the
memoized project, fetching and storing it first when the field is null. -/
def getProject (s : GState) (srv : Server) : GState × Project × List Call :=
  match s.data.project with
  | some pr => (s, pr, [])
  | none =>
    let pr := srv.projectOf s.data.projectId
    ({ s with data := { s.data with project := some pr } }, pr,
     [projectGetCall s.data.projectId])

/-- `globalState.getAllJobs` (services.js lines 122-129). -/
def getAllJobs (s : GState) (srv : Server) : GState × List Job × List Call :=
  match s.data.jobs with
  | some js => (s, js, [])
  | none =>
    let js := srv.jobsOf s.data.projectId
    ({ s with data := { s.data with jobs := some js } }, js,
     [jobAllCall s.data.projectId true])

/-- `globalState.getAllJobTemplates` (services.js lines 131-138). -/
def getAllJobTemplates (s : GState) (srv : Server) :
    GState × List JobTemplate × List Call :=
  match s.data.jobTemplates with
  | some ts => (s, ts, [])
  | none =>
    let ts := srv.templatesOf s.data.projectId
    ({ s with data := { s.data with jobTemplates := some ts } }, ts,
     [jobTemplateAllCall s.data.projectId false])

/-- The synchronous part of `globalState.getRuns` (services.js lines
140-177): on a hit it returns the memoized list; on a miss it sets
`data.runs = []`, issues the three state-filtered `Run.all` queries and the
`Job.all` query, and returns the still-empty list — the response callbacks
run only later.  Returns (state, value returned to the caller, calls issued
synchronously). -/
def getRunsStart (s : GState) (_srv : Server) :
    GState × List Run × List Call :=
  match s.data.runs with
  | some rs => (s, rs, [])
  | none =>
    let pid := s.data.projectId
    ({ s with data := { s.data with runs := some [] } }, [],
     [runAllCall scheduledState pid,
      runAllCall inQueueState pid,
      runAllCall startedState pid,
      jobAllCall pid true])

/-- The `Run.query` calls spawned by the `Job.all` response callback of
`getRuns` (services.js lines 165-173): one completed-state, limit-1 query
per job of the project. -/
def getRunsSpawnedCalls (srv : Server) (pid : Option PId) : List Call :=
  (srv.jobsOf pid).map (fun j => runQueryCall j.id)

/-- Response-arrival events for the queries of one `getRuns` invocation. -/
inductive RunEvt where
  | scheduledDone
  | inQueueDone
  | startedDone
  | jobsDone
  | completedDone (jobId : Nat)
deriving DecidableEq

/-- The runs a response callback pushes onto `self.data.runs`: the
`Job.all` callback pushes nothing itself (it only spawns the per-job
completed queries). -/
def runBlock (srv : Server) (pid : Option PId) : RunEvt → List Run
  | RunEvt.scheduledDone => srv.runsOf scheduledState pid
  | RunEvt.inQueueDone => srv.runsOf inQueueState pid
  | RunEvt.startedDone => srv.runsOf startedState pid
  | RunEvt.jobsDone => []
  | RunEvt.completedDone jid => srv.completedOf jid

/-- Delivery of one response: its callback appends its block to
`self.data.runs` (`angular.forEach(resp, push)`). -/
def deliverEvt (srv : Server) (pid : Option PId) (s : GState)
    (e : RunEvt) : GState :=
  { s with data :=
      { s.data with runs := s.data.runs.map (fun rs => rs ++ runBlock srv pid e) } }

/-- Delivery of a whole arrival schedule, in order. -/
def deliverAll (srv : Server) (pid : Option PId) (s : GState)
    (σ : List RunEvt) : GState :=
  σ.foldl (deliverEvt srv pid) s

/-- The responses one `getRuns` invocation eventually receives, in issue
order: the three run queries, the jobs query, then one completed query per
job of the project. -/
def canonicalRunEvts (srv : Server) (pid : Option PId) : List RunEvt :=
  [RunEvt.scheduledDone, RunEvt.inQueueDone, RunEvt.startedDone,
   RunEvt.jobsDone]
    ++ (srv.jobsOf pid).map (fun j => RunEvt.completedDone j.id)

/-- A possible arrival order: a permutation of the issued queries' responses
in which the per-job completed responses arrive only after the jobs
response (those queries are issued inside its callback). -/
def WFSchedule (srv : Server) (pid : Option PId) (σ : List RunEvt) : Prop :=
  σ.Perm (canonicalRunEvts srv pid)
    ∧ ∃ a b, σ = a ++ RunEvt.jobsDone :: b
        ∧ ∀ jid, RunEvt.completedDone jid ∉ a

/-! ## Route configuration (unnamed module-config source file) -/

/-- One `$routeProvider.when` registration. -/
structure RouteEntry where
  pattern : String
  controller : String
  templateUrl : String
deriving DecidableEq

/-- URL pattern `'/project/:project/runs/'`. -/
def runsPattern : String := "/project/:project/runs/"

/-- URL pattern `'/project/:project/jobs/'`. -/
def jobsPattern : String := "/project/:project/jobs/"

/-- URL pattern `'/project/:project/jobs/:job/'`. -/
def jobDetailPattern : String := "/project/:project/jobs/:job/"

/-- Controller name `RunsCtrl`. -/
def runsCtrlName : String := "RunsCtrl"

/-- Controller name `JobListCtrl`. -/
def jobListCtrlName : String := "JobListCtrl"

/-- Template `'/static/job_runner/templates/runs.html'`. -/
def runsTemplateUrl : String := "/static/job_runner/templates/runs.html"

/-- Template `'/static/job_runner/templates/job_list.html'`. -/
def jobListTemplateUrl : String := "/static/job_runner/templates/job_list.html"

/-- The route table registered in the module config (lines 16-19 of the
unnamed source file). -/
def routeTable : List RouteEntry :=
  [{ pattern := runsPattern
     controller := runsCtrlName
     templateUrl := runsTemplateUrl },
   { pattern := jobsPattern
     controller := jobListCtrlName
     templateUrl := jobListTemplateUrl },
   { pattern := jobDetailPattern
     controller := jobListCtrlName
     templateUrl := jobListTemplateUrl }]

/-! ## Derived definitions and concrete fixtures -/

/-- The cache contents `initialize` builds, starting from the emptied
cache: each resource list under its `.all` key and each item under its
per-id key, in source order jobs, then templates, then workers. -/
def populateCache (pid : Option PId) (srv : Server) : Cache :=
  let jobs := srv.jobsOf pid
  let c1 := putItems jobKey CVal.job
    (cachePut [] jobAllKey (CVal.jobList jobs)) jobs
  let templates := srv.templatesOf pid
  let c2 := putItems jobTemplateKey CVal.jobTemplate
    (cachePut c1 jobTemplateAllKey (CVal.jobTemplateList templates)) templates
  let workers := srv.workersOf pid
  putItems workerKey CVal.worker
    (cachePut c2 workerAllKey (CVal.workerList workers)) workers

/-- The event trace of a full `initialize` run through its reset branch. -/
def initTrace (pid : Option PId) (srv : Server) : List Ev :=
  Ev.issue (jobAllCall pid true)
      :: Ev.put jobAllKey (CVal.jobList (srv.jobsOf pid))
      :: putEvents jobKey CVal.job (srv.jobsOf pid)
    ++ Ev.issue (jobTemplateAllCall pid true)
      :: Ev.put jobTemplateAllKey (CVal.jobTemplateList (srv.templatesOf pid))
      :: putEvents jobTemplateKey CVal.jobTemplate (srv.templatesOf pid)
    ++ Ev.issue (workerAllCall pid true)
      :: Ev.put workerAllKey (CVal.workerList (srv.workersOf pid))
      :: putEvents workerKey CVal.worker (srv.workersOf pid)
    ++ [Ev.cb]

/-- All cache keys one `initialize` run writes, in write order. -/
def initKeys (srv : Server) (pid : Option PId) : List String :=
  (jobAllKey :: (srv.jobsOf pid).map jobKey)
    ++ (jobTemplateAllKey :: (srv.templatesOf pid).map jobTemplateKey)
    ++ (workerAllKey :: (srv.workersOf pid).map workerKey)

/-- All remote calls of one full `getRuns` invocation: none on a cache
hit; on a miss, the four synchronous queries plus the per-job completed
queries its `Job.all` callback issues. -/
def getRunsCalls (s : GState) (srv : Server) : List Call :=
  match s.data.runs with
  | some _ => []
  | none =>
    (getRunsStart s srv).2.2 ++ getRunsSpawnedCalls srv s.data.projectId

/-- Concrete project id `'1'` used in fixtures. -/
def pidOne : String := "1"

/-- Concrete project id `'2'` used in fixtures. -/
def pidTwo : String := "2"

/-- The empty (falsy) project id string. -/
def emptyPid : String := ""

/-- A small concrete server used to instantiate hypotheses of the claim
theorems on explicit inputs. -/
def witnessServer : Server where
  projectOf := fun _ => { id := 5, payload := 0 }
  jobsOf := fun _ => [{ id := 1, payload := 0 }, { id := 2, payload := 0 }]
  templatesOf := fun _ => [{ id := 3, payload := 0 }]
  workersOf := fun _ => [{ id := 4, payload := 0 }]
  runsOf := fun st _ => if st = scheduledState then [{ id := 7, payload := 0 }] else []
  completedOf := fun jid => [{ id := 100 + jid, payload := 0 }]

/-- A concrete state whose active project id is the (falsy) empty string
and whose cache is non-empty. -/
def emptyIdState : GState where
  data := { initialData with projectId := some emptyPid }
  cache := [(jobAllKey, CVal.jobList [])]

/-- A concrete state with an active project and no memoized runs. -/
def runsStartState : GState where
  data := { initialData with projectId := some pidOne }
  cache := []

/-! ## Helper lemmas -/

/-- A fresh put is found by a lookup of its key. -/
lemma cacheGet_cachePut_self (c : Cache) (k : String) (v : CVal) :
    cacheGet (cachePut c k v) k = some v := by
  simp [cacheGet, cachePut]

/-- `find?` only depends on the predicate's values on the list. -/
lemma find?_ext {α : Type} (p q : α → Bool) (l : List α)
    (h : ∀ a ∈ l, p a = q a) : l.find? p = l.find? q := by
  induction l with
  | nil => rfl
  | cons a tl ih =>
    have ha := h a (List.mem_cons_self a tl)
    rw [List.find?_cons, List.find?_cons, ha]
    cases q a with
    | true => rfl
    | false => exact ih (fun b hb => h b (List.mem_cons_of_mem a hb))

/-- Filtering out one key leaves lookups of other keys unchanged. -/
lemma find?_filter_key (c : Cache) (k k' : String) (h : k' ≠ k) :
    (c.filter (fun e => e.1 ≠ k)).find? (fun e => e.1 == k')
      = c.find? (fun e => e.1 == k') := by
  rw [List.find?_filter]
  apply find?_ext
  intro a _
  rcases eq_or_ne a.1 k with he | he
  · have h2 : (k == k') = false :=
      beq_eq_false_iff_ne.mpr (fun hk => h hk.symm)
    simp [he, h2]
  · simp [he, beq_eq_decide]

/-- A put leaves lookups of other keys unchanged. -/
lemma cacheGet_cachePut_ne (c : Cache) (k k' : String) (v : CVal)
    (h : k' ≠ k) : cacheGet (cachePut c k v) k' = cacheGet c k' := by
  have hh : ((k, v).1 == k') = false :=
    beq_eq_false_iff_ne.mpr (fun hk => h hk.symm)
  simp only [cacheGet, cachePut, List.find?_cons, hh]
  rw [find?_filter_key c k k' h]

/-- Unfolding one step of a put loop. -/
lemma putItems_cons {α : Type} (keyOf : α → String) (wrap : α → CVal)
    (c : Cache) (a : α) (l : List α) :
    putItems keyOf wrap c (a :: l)
      = putItems keyOf wrap (cachePut c (keyOf a) (wrap a)) l := rfl

/-- A put loop leaves lookups of keys it does not touch unchanged. -/
lemma cacheGet_putItems_of_not_mem {α : Type} (keyOf : α → String)
    (wrap : α → CVal) (l : List α) (c : Cache) (k : String)
    (h : k ∉ l.map keyOf) :
    cacheGet (putItems keyOf wrap c l) k = cacheGet c k := by
  induction l generalizing c with
  | nil => rfl
  | cons a tl ih =>
    rw [putItems_cons]
    have hka : k ≠ keyOf a := by
      intro hk
      exact h (by rw [hk]; exact List.mem_map_of_mem keyOf (List.mem_cons_self a tl))
    have htl : k ∉ tl.map keyOf := by
      intro hk
      exact h (by rw [List.map_cons]; exact List.mem_cons_of_mem (keyOf a) hk)
    rw [ih (cachePut c (keyOf a) (wrap a)) htl]
    exact cacheGet_cachePut_ne c (keyOf a) k (wrap a) hka

/-- After a put loop over a list with pairwise-distinct keys, each item is
found under its key. -/
lemma cacheGet_putItems_of_mem {α : Type} (keyOf : α → String)
    (wrap : α → CVal) (l : List α) (c : Cache) (a : α) (ha : a ∈ l)
    (hnd : (l.map keyOf).Nodup) :
    cacheGet (putItems keyOf wrap c l) (keyOf a) = some (wrap a) := by
  induction l generalizing c with
  | nil => cases ha
  | cons b tl ih =>
    rw [putItems_cons]
    rw [List.map_cons, List.nodup_cons] at hnd
    rcases List.mem_cons.mp ha with rfl | hmem
    · rw [cacheGet_putItems_of_not_mem keyOf wrap tl _ _ hnd.1]
      exact cacheGet_cachePut_self c (keyOf a) (wrap a)
    · exact ih (cachePut c (keyOf b) (wrap b)) hmem hnd.2

/-- The guard holds whenever the stored id is not `some p`. -/
lemma needsReset_of_ne {pid : Option PId} {p : PId} (h : pid ≠ some p) :
    needsReset pid p = true := by
  simp [needsReset, bne_iff_ne]
  tauto

/-- The guard fails on a truthy stored id equal to `p`. -/
lemma needsReset_same {p : PId} (hp : p ≠ "") :
    needsReset (some p) p = false := by
  simp [needsReset, jsTruthyPid, hp]

/-- When the guard holds, `initialize` produces the canonical trace and the
reset-then-repopulated state. -/
lemma initializeProject_spec (s : GState) (p : PId) (srv : Server)
    (h : needsReset s.data.projectId p = true) :
    initializeProject s p srv
      = (initTrace (some p) srv,
         { data :=
             { s.data with
                 projectId := some p
                 project := none
                 jobs := none
                 jobTemplates := none
                 runs := none },
           cache := populateCache (some p) srv }) := by
  simp [initializeProject, h, resetForProject, initTrace, populateCache]

/-- Delivering response callbacks appends their blocks, in arrival order,
to the list already stored in `data.runs`. -/
lemma deliverAll_runs (srv : Server) (pid : Option PId) (σ : List RunEvt)
    (s : GState) (rs : List Run) (h : s.data.runs = some rs) :
    (deliverAll srv pid s σ).data.runs
      = some (rs ++ (σ.map (runBlock srv pid)).flatten) := by
  induction σ generalizing s rs with
  | nil => simpa [deliverAll] using h
  | cons e tl ih =>
    have hstep : (deliverEvt srv pid s e).data.runs
        = some (rs ++ runBlock srv pid e) := by
      simp [deliverEvt, h]
    have := ih (deliverEvt srv pid s e) (rs ++ runBlock srv pid e) hstep
    simpa [deliverAll, List.append_assoc] using this

/-- Splitting a non-membership in a cons. -/
lemma not_mem_cons_split {α : Type} {x y : α} {l : List α}
    (h : x ∉ y :: l) : x ≠ y ∧ x ∉ l :=
  ⟨fun he => h (by rw [he]; exact List.mem_cons_self y l),
   fun hm => h (List.mem_cons_of_mem y hm)⟩

/-- The fully unfolded shape of `populateCache`. -/
lemma populateCache_eq (pid : Option PId) (srv : Server) :
    populateCache pid srv
      = putItems workerKey CVal.worker
          (cachePut
            (putItems jobTemplateKey CVal.jobTemplate
              (cachePut
                (putItems jobKey CVal.job
                  (cachePut [] jobAllKey (CVal.jobList (srv.jobsOf pid)))
                  (srv.jobsOf pid))
                jobTemplateAllKey (CVal.jobTemplateList (srv.templatesOf pid)))
              (srv.templatesOf pid))
            workerAllKey (CVal.workerList (srv.workersOf pid)))
          (srv.workersOf pid) := rfl

/-- Cache-store events contribute no calls. -/
lemma filterMap_issue_putEvents {α : Type} (keyOf : α → String)
    (wrap : α → CVal) (l : List α) :
    (putEvents keyOf wrap l).filterMap
        (fun e =>
          match e with
          | Ev.issue c => some c
          | _ => none) = [] := by
  induction l with
  | nil => rfl
  | cons a tl ih => simp [putEvents, List.filterMap_cons, ih]

/-- The only calls in an `initialize` trace are its three chained
fetches. -/
lemma callsOf_initTrace (pid : Option PId) (srv : Server) :
    callsOf (initTrace pid srv)
      = [jobAllCall pid true, jobTemplateAllCall pid true,
         workerAllCall pid true] := by
  simp [initTrace, callsOf, List.filterMap_append, List.filterMap_cons,
    filterMap_issue_putEvents]

/-- The truncating breakdown of total seconds into the
sub-month components, before month extraction. -/
lemma durSecondsTotal_decomp (ms : Int) :
    durSecondsTotal ms
      = durSeconds ms + 60 * durMinutes ms + 3600 * durHours ms
        + 86400 * durDaysBeforeMonths ms := by
  have h1 := Int.tdiv_add_tmod (durSecondsTotal ms) 60
  have h2 := Int.tdiv_add_tmod (durMinutesTotal ms) 60
  have h3 := Int.tdiv_add_tmod (durHoursTotal ms) 24
  have e1 : durMinutesTotal ms = (durSecondsTotal ms).tdiv 60 := rfl
  have e2 : durHoursTotal ms = (durMinutesTotal ms).tdiv 60 := rfl
  rw [← e1] at h1
  rw [← e2] at h2
  unfold durSeconds durMinutes durHours durDaysBeforeMonths
  omega

/-- The days moment converts back out of the extracted months are zero
exactly when no months were extracted. -/
lemma monthsBack_zero_iff (ms : Int) :
    Int.tdiv (durMonthsFromDays ms * 146097) 4800 = 0
      ↔ durMonthsFromDays ms = 0 := by
  constructor
  · intro h
    have hn := congrArg Int.natAbs h
    rw [Int.natAbs_tdiv, Int.natAbs_mul] at hn
    simp only [Int.natAbs_zero, Int.natAbs_ofNat] at hn
    have hlt : (durMonthsFromDays ms).natAbs * 146097 < 4800 :=
      (Nat.div_eq_zero_iff (by norm_num)).mp hn
    have : (durMonthsFromDays ms).natAbs = 0 := by omega
    exact Int.natAbs_eq_zero.mp this
  · intro h
    rw [h]
    simp

/-- The month and year components are both zero exactly when no months
were extracted. -/
lemma monthComponents_zero_iff (ms : Int) :
    (durMonths ms = 0 ∧ durYears ms = 0) ↔ durMonthsFromDays ms = 0 := by
  unfold durMonths durYears
  constructor
  · rintro ⟨h1, h2⟩
    have h3 := Int.tdiv_add_tmod (durMonthsFromDays ms) 12
    omega
  · intro h
    rw [h]
    constructor <;> rfl

/-- With a nonnegative duration, the month count is nonnegative. -/
lemma durMonthsFromDays_nonneg {ms : Int} (h : 0 ≤ ms) :
    0 ≤ durMonthsFromDays ms := by
  unfold durMonthsFromDays durDaysBeforeMonths durHoursTotal
  unfold durMinutesTotal durSecondsTotal
  have h1 : (0:Int) ≤ Int.tdiv ms 1000 := Int.tdiv_nonneg h (by norm_num)
  have h2 : (0:Int) ≤ Int.tdiv (Int.tdiv ms 1000) 60 :=
    Int.tdiv_nonneg h1 (by norm_num)
  have h3 : (0:Int) ≤ Int.tdiv (Int.tdiv (Int.tdiv ms 1000) 60) 60 :=
    Int.tdiv_nonneg h2 (by norm_num)
  have h4 : (0:Int) ≤ Int.tdiv (Int.tdiv (Int.tdiv (Int.tdiv ms 1000) 60) 60) 24 :=
    Int.tdiv_nonneg h3 (by norm_num)
  exact Int.tdiv_nonneg (by positivity) (by norm_num)

/-! ## Claim theorems -/

/-- Claim C9: every `dtformat` function returns no value (`undefined`,
here `none`) when given a `null` argument — `formatDuration` and
`getDurationInSec` whenever `startDts` or `endDts` is `null`, and
`formatDateTime` whenever `dateTimeString` is `null` — and, being total
functions, they raise no exception in these cases. -/
theorem C9_dtformat_null_gives_undefined (a b : Option Int) :
    formatDuration none b = none
    ∧ formatDuration a none = none
    ∧ getDurationInSec none b = none
    ∧ getDurationInSec a none = none
    ∧ formatDateTime none = none :=
  ⟨by cases b <;> rfl, by cases a <;> rfl, by cases b <;> rfl,
   by cases a <;> rfl, rfl⟩

/-- Claim C10: for non-null timestamps, `getDurationInSec` returns
`seconds + 60*minutes + 3600*hours + 86400*days` of the duration
components of `end - start` (months and years ignored); the result equals
the total elapsed whole seconds iff the month and year components are both
zero; and for nonnegative durations with a nonzero month or year component
it under-reports, i.e. is strictly below the total elapsed whole
seconds. -/
theorem C10_getDurationInSec_components (s e : Int) :
    getDurationInSec (some s) (some e)
      = some (durSeconds (e - s) + 60 * durMinutes (e - s)
          + 3600 * durHours (e - s) + 86400 * durDays (e - s))
    ∧ (getDurationInSec (some s) (some e) = some (durSecondsTotal (e - s))
        ↔ durMonths (e - s) = 0 ∧ durYears (e - s) = 0)
    ∧ (0 ≤ e - s → ¬(durMonths (e - s) = 0 ∧ durYears (e - s) = 0) →
        durSeconds (e - s) + 60 * durMinutes (e - s)
            + 3600 * durHours (e - s) + 86400 * durDays (e - s)
          < durSecondsTotal (e - s)) := by
  have hdays : durDays (e - s)
      = durDaysBeforeMonths (e - s)
        - Int.tdiv (durMonthsFromDays (e - s) * 146097) 4800 := rfl
  have hd := durSecondsTotal_decomp (e - s)
  refine ⟨?_, ?_, ?_⟩
  · simp only [getDurationInSec, durMs]
    congr 1
    ring
  · simp only [getDurationInSec, durMs, Option.some.injEq]
    rw [monthComponents_zero_iff, ← monthsBack_zero_iff]
    constructor
    · intro h
      omega
    · intro h
      omega
  · intro hnn hne
    have hmo : durMonthsFromDays (e - s) ≠ 0 :=
      fun h0 => hne ((monthComponents_zero_iff (e - s)).mpr h0)
    have hmon : 0 ≤ durMonthsFromDays (e - s) := durMonthsFromDays_nonneg hnn
    have hXnn : 0 ≤ Int.tdiv (durMonthsFromDays (e - s) * 146097) 4800 :=
      Int.tdiv_nonneg (mul_nonneg hmon (by norm_num)) (by norm_num)
    have hXne : Int.tdiv (durMonthsFromDays (e - s) * 146097) 4800 ≠ 0 :=
      fun h0 => hmo ((monthsBack_zero_iff (e - s)).mp h0)
    omega

/-- Witness for C10 at a 32-day duration (in milliseconds): the month
component is 1, and the returned seconds under-report the elapsed
seconds. -/
theorem C10_witness :
    durSeconds ((2764800000:Int) - 0) + 60 * durMinutes ((2764800000:Int) - 0)
        + 3600 * durHours ((2764800000:Int) - 0)
        + 86400 * durDays ((2764800000:Int) - 0)
      < durSecondsTotal ((2764800000:Int) - 0) :=
  (C10_getDurationInSec_components 0 2764800000).2.2 (by decide) (by decide)

/-- Claim C1: whenever `setProjectId(p)` or `initialize(p, cb)` runs with a
stored `data.projectId` that is null or differs from `p`, the operation
empties `globalCache`, resets `data.project`, `data.jobs`,
`data.jobTemplates` and `data.runs` to null, and sets `data.projectId`
to `p`.  For `initialize` the emptying is visible in the final state as
independence from the prior cache: the final cache is exactly the
repopulation built from the empty cache (`populateCache`), and the four
data fields stay null. -/
theorem C1_project_change_resets (s : GState) (p : PId) (srv : Server)
    (h : s.data.projectId = none ∨ s.data.projectId ≠ some p) :
    (setProjectId s p).1.cache = []
    ∧ (setProjectId s p).1.data.project = none
    ∧ (setProjectId s p).1.data.jobs = none
    ∧ (setProjectId s p).1.data.jobTemplates = none
    ∧ (setProjectId s p).1.data.runs = none
    ∧ (setProjectId s p).1.data.projectId = some p
    ∧ (initializeProject s p srv).2.data.project = none
    ∧ (initializeProject s p srv).2.data.jobs = none
    ∧ (initializeProject s p srv).2.data.jobTemplates = none
    ∧ (initializeProject s p srv).2.data.runs = none
    ∧ (initializeProject s p srv).2.data.projectId = some p
    ∧ (initializeProject s p srv).2.cache = populateCache (some p) srv := by
  have hne : s.data.projectId ≠ some p := by
    rcases h with h | h
    · rw [h]
      exact fun hc => Option.noConfusion hc
    · exact h
  have hg := needsReset_of_ne hne
  rw [initializeProject_spec s p srv hg]
  simp [setProjectId, hg, resetForProject]

/-- Witness for C1 on a concrete project change from `"1"` to `"2"`. -/
theorem C1_witness :
    (setProjectId runsStartState pidTwo).1.cache = [] :=
  (C1_project_change_resets runsStartState pidTwo witnessServer
    (Or.inr (by decide))).1

/-- Counterexample to C6 as stated: with the stored `data.projectId` equal
to the empty string — non-null and equal to the argument `p = ''` — the
guard `!this.data.projectId` is still true (the empty string is falsy in
JavaScript), so `setProjectId('')` empties the non-empty cache instead of
leaving every entry unchanged, and `initialize('')` issues fetches instead
of invoking the callback immediately. -/
theorem C6_counterexample :
    emptyIdState.data.projectId = some emptyPid
    ∧ emptyIdState.cache ≠ []
    ∧ (setProjectId emptyIdState emptyPid).1.cache = []
    ∧ (initializeProject emptyIdState emptyPid witnessServer).1 ≠ [Ev.cb] := by
  decide

/-- Claim C6 (amended): for every call to `setProjectId(p)` or
`initialize(p, cb)` where the stored `data.projectId` is non-null,
*truthy* (non-empty), and equal to `p`, the whole state — every field of
`data` and every cache entry — is unchanged, no remote fetch is issued,
and `initialize` invokes its callback immediately (its trace is exactly
the callback event). -/
theorem C6_same_truthy_project_noop (s : GState) (p : PId) (srv : Server)
    (h : s.data.projectId = some p) (hp : p ≠ "") :
    setProjectId s p = (s, [])
    ∧ initializeProject s p srv = ([Ev.cb], s) := by
  have hg : needsReset s.data.projectId p = false := by
    rw [h]
    exact needsReset_same hp
  constructor
  · simp [setProjectId, hg]
  · simp [initializeProject, hg]

/-- Witness for C6 with the active project id `"1"` re-set to `"1"`. -/
theorem C6_witness :
    setProjectId runsStartState pidOne = (runsStartState, []) :=
  (C6_same_truthy_project_noop runsStartState pidOne witnessServer
    (by decide) (by decide)).1

/-- Claim C3: when `initialize(p, cb)` runs with `p` different from the
stored project id, the cache is populated in the sequence jobs, then job
templates, then workers — the full trace is: issue jobs fetch, store
`job.all` and each `job.<id>`, issue templates fetch, store
`jobTemplate.all` and each `jobTemplate.<id>`, issue workers fetch, store
`worker.all` and each `worker.<id>`, and only then the callback — and
afterwards every list is in `globalCache` under its `.all` key and every
item under its per-id key.  The `Nodup` hypothesis states that the written
cache keys are pairwise distinct, which holds for any real response since
ids are unique per resource and the three key prefixes differ. -/
theorem C3_initialize_populates_in_sequence (s : GState) (p : PId)
    (srv : Server) (hne : s.data.projectId ≠ some p)
    (hkeys : (initKeys srv (some p)).Nodup) :
    (initializeProject s p srv).1 = initTrace (some p) srv
    ∧ cacheGet (initializeProject s p srv).2.cache jobAllKey
        = some (CVal.jobList (srv.jobsOf (some p)))
    ∧ (∀ j ∈ srv.jobsOf (some p),
        cacheGet (initializeProject s p srv).2.cache (jobKey j)
          = some (CVal.job j))
    ∧ cacheGet (initializeProject s p srv).2.cache jobTemplateAllKey
        = some (CVal.jobTemplateList (srv.templatesOf (some p)))
    ∧ (∀ t ∈ srv.templatesOf (some p),
        cacheGet (initializeProject s p srv).2.cache (jobTemplateKey t)
          = some (CVal.jobTemplate t))
    ∧ cacheGet (initializeProject s p srv).2.cache workerAllKey
        = some (CVal.workerList (srv.workersOf (some p)))
    ∧ (∀ w ∈ srv.workersOf (some p),
        cacheGet (initializeProject s p srv).2.cache (workerKey w)
          = some (CVal.worker w)) := by
  have hg := needsReset_of_ne hne
  rw [initializeProject_spec s p srv hg]
  rw [initKeys] at hkeys
  have d1 := List.disjoint_of_nodup_append hkeys
  have n1 := hkeys.of_append_left
  have nC := hkeys.of_append_right
  have d2 := List.disjoint_of_nodup_append n1
  have nA := n1.of_append_left
  have nB := n1.of_append_right
  obtain ⟨hJall, hJnd⟩ := List.nodup_cons.mp nA
  obtain ⟨hTall, hTnd⟩ := List.nodup_cons.mp nB
  obtain ⟨hWall, hWnd⟩ := List.nodup_cons.mp nC
  have memJall : jobAllKey ∈
      jobAllKey :: (srv.jobsOf (some p)).map jobKey :=
    List.mem_cons_self _ _
  have memTall : jobTemplateAllKey ∈
      jobTemplateAllKey :: (srv.templatesOf (some p)).map jobTemplateKey :=
    List.mem_cons_self _ _
  -- jobAllKey is not among the template-phase or worker-phase keys
  have hJaC := not_mem_cons_split
    (fun hm => d1 (List.mem_append.mpr (Or.inl memJall)) hm)
  have hJaB := not_mem_cons_split (fun hm => d2 memJall hm)
  -- jobTemplateAllKey is not among the worker-phase keys
  have hTaC := not_mem_cons_split
    (fun hm => d1 (List.mem_append.mpr (Or.inr memTall)) hm)
  simp only [populateCache_eq]
  refine ⟨trivial, ?_, ?_, ?_, ?_, ?_, ?_⟩
  · rw [cacheGet_putItems_of_not_mem _ _ _ _ _ hJaC.2,
      cacheGet_cachePut_ne _ _ _ _ hJaC.1,
      cacheGet_putItems_of_not_mem _ _ _ _ _ hJaB.2,
      cacheGet_cachePut_ne _ _ _ _ hJaB.1,
      cacheGet_putItems_of_not_mem _ _ _ _ _ hJall]
    exact cacheGet_cachePut_self _ _ _
  · intro j hj
    have memJ : jobKey j ∈ jobAllKey :: (srv.jobsOf (some p)).map jobKey :=
      List.mem_cons_of_mem _ (List.mem_map_of_mem jobKey hj)
    have hjC := not_mem_cons_split
      (fun hm => d1 (List.mem_append.mpr (Or.inl memJ)) hm)
    have hjB := not_mem_cons_split (fun hm => d2 memJ hm)
    rw [cacheGet_putItems_of_not_mem _ _ _ _ _ hjC.2,
      cacheGet_cachePut_ne _ _ _ _ hjC.1,
      cacheGet_putItems_of_not_mem _ _ _ _ _ hjB.2,
      cacheGet_cachePut_ne _ _ _ _ hjB.1]
    exact cacheGet_putItems_of_mem jobKey CVal.job _ _ j hj hJnd
  · rw [cacheGet_putItems_of_not_mem _ _ _ _ _ hTaC.2,
      cacheGet_cachePut_ne _ _ _ _ hTaC.1,
      cacheGet_putItems_of_not_mem _ _ _ _ _ hTall]
    exact cacheGet_cachePut_self _ _ _
  · intro t ht
    have memT : jobTemplateKey t ∈
        jobTemplateAllKey :: (srv.templatesOf (some p)).map jobTemplateKey :=
      List.mem_cons_of_mem _ (List.mem_map_of_mem jobTemplateKey ht)
    have htC := not_mem_cons_split
      (fun hm => d1 (List.mem_append.mpr (Or.inr memT)) hm)
    rw [cacheGet_putItems_of_not_mem _ _ _ _ _ htC.2,
      cacheGet_cachePut_ne _ _ _ _ htC.1]
    exact cacheGet_putItems_of_mem jobTemplateKey CVal.jobTemplate _ _ t ht hTnd
  · rw [cacheGet_putItems_of_not_mem _ _ _ _ _ hWall]
    exact cacheGet_cachePut_self _ _ _
  · intro w hw
    exact cacheGet_putItems_of_mem workerKey CVal.worker _ _ w hw hWnd

/-- Witness for C3: project change from `"1"` to `"2"` against the
concrete server. -/
theorem C3_witness :
    (initializeProject runsStartState pidTwo witnessServer).1
      = initTrace (some pidTwo) witnessServer :=
  (C3_initialize_populates_in_sequence runsStartState pidTwo witnessServer
    (by decide) (by decide)).1

/-- Counterexample to C2 as stated: on a concrete cache miss, `getRuns`
returns `[]` to its caller synchronously, while after the four queries'
callbacks have run `data.runs` holds three runs — so the caller observes
the returned list before the queries have populated it, and no
complete-all-four-before-exposing guarantee exists. -/
theorem C2_counterexample :
    (getRunsStart runsStartState witnessServer).2.1 = []
    ∧ (getRunsStart runsStartState witnessServer).1.data.runs = some []
    ∧ (deliverAll witnessServer (some pidOne)
          (getRunsStart runsStartState witnessServer).1
          (canonicalRunEvts witnessServer (some pidOne))).data.runs
        = some [{ id := 7, payload := 0 },
                { id := 101, payload := 0 },
                { id := 102, payload := 0 }] := by
  decide

/-- Claim C2 (amended): `getRuns` does not wait for its queries: on a
cache miss it returns the still-empty aggregation list immediately after
issuing the three run-state queries and the jobs query, before any
response callback has run; the callbacks append their blocks into
`data.runs` afterwards, in arrival order, and only after all of them have
run does `data.runs` hold the full aggregation. -/
theorem C2_getRuns_exposes_list_before_completion (s : GState)
    (srv : Server) (h : s.data.runs = none) :
    (getRunsStart s srv).2.1 = []
    ∧ (getRunsStart s srv).1.data.runs = some []
    ∧ (getRunsStart s srv).2.2
        = [runAllCall scheduledState s.data.projectId,
           runAllCall inQueueState s.data.projectId,
           runAllCall startedState s.data.projectId,
           jobAllCall s.data.projectId true]
    ∧ ∀ σ : List RunEvt,
        (deliverAll srv s.data.projectId (getRunsStart s srv).1 σ).data.runs
          = some ((σ.map (runBlock srv s.data.projectId)).flatten) := by
  have hruns : (getRunsStart s srv).1.data.runs = some [] := by
    simp [getRunsStart, h]
  refine ⟨by simp [getRunsStart, h], hruns, by simp [getRunsStart, h], ?_⟩
  intro σ
  simpa using deliverAll_runs srv s.data.projectId σ _ [] hruns

/-- Witness for the amended C2 on concrete inputs. -/
theorem C2_witness :
    (getRunsStart runsStartState witnessServer).2.1 = [] :=
  (C2_getRuns_exposes_list_before_completion runsStartState witnessServer
    (by decide)).1

/-- Claim C5: the run list built by one `getRuns` miss invocation is the
merge of exactly its four queries.  For every causally consistent arrival
order, the final `data.runs` is the concatenation of the response blocks
in arrival order — each block appended intact, with no de-duplication,
filtering or client-side reordering — hence a permutation of the
scheduled, in_queue and started query results followed by each job's
completed limit-1 query results, and exactly that concatenation when
responses arrive in issue order. -/
theorem C5_getRuns_merges_exactly_four_queries (s : GState) (srv : Server)
    (σ : List RunEvt) (h : s.data.runs = none)
    (hσ : WFSchedule srv s.data.projectId σ) :
    (deliverAll srv s.data.projectId (getRunsStart s srv).1 σ).data.runs
      = some ((σ.map (runBlock srv s.data.projectId)).flatten)
    ∧ ((σ.map (runBlock srv s.data.projectId)).flatten).Perm
        (srv.runsOf scheduledState s.data.projectId
          ++ srv.runsOf inQueueState s.data.projectId
          ++ srv.runsOf startedState s.data.projectId
          ++ ((srv.jobsOf s.data.projectId).map
                (fun j => srv.completedOf j.id)).flatten)
    ∧ (σ = canonicalRunEvts srv s.data.projectId →
        (σ.map (runBlock srv s.data.projectId)).flatten
          = srv.runsOf scheduledState s.data.projectId
            ++ srv.runsOf inQueueState s.data.projectId
            ++ srv.runsOf startedState s.data.projectId
            ++ ((srv.jobsOf s.data.projectId).map
                  (fun j => srv.completedOf j.id)).flatten) := by
  have hruns : (getRunsStart s srv).1.data.runs = some [] := by
    simp [getRunsStart, h]
  have hcanon :
      ((canonicalRunEvts srv s.data.projectId).map
          (runBlock srv s.data.projectId)).flatten
        = srv.runsOf scheduledState s.data.projectId
          ++ srv.runsOf inQueueState s.data.projectId
          ++ srv.runsOf startedState s.data.projectId
          ++ ((srv.jobsOf s.data.projectId).map
                (fun j => srv.completedOf j.id)).flatten := by
    simp only [canonicalRunEvts, List.map_append, List.map_cons,
      List.map_nil, List.map_map, List.flatten_append, List.flatten_cons,
      List.flatten_nil, List.append_nil, List.nil_append, List.append_assoc,
      runBlock]
    rfl
  refine ⟨?_, ?_, ?_⟩
  · simpa using deliverAll_runs srv s.data.projectId σ _ [] hruns
  · have hp := (hσ.1.map (runBlock srv s.data.projectId)).flatten
    rw [hcanon] at hp
    exact hp
  · intro hcan
    rw [hcan, hcanon]

/-- Witness for C5 with the in-order arrival schedule. -/
theorem C5_witness :
    (deliverAll witnessServer (some pidOne)
        (getRunsStart runsStartState witnessServer).1
        (canonicalRunEvts witnessServer (some pidOne))).data.runs
      = some (((canonicalRunEvts witnessServer (some pidOne)).map
          (runBlock witnessServer (some pidOne))).flatten) :=
  (C5_getRuns_merges_exactly_four_queries runsStartState witnessServer
    (canonicalRunEvts witnessServer (some pidOne)) (by decide)
    ⟨List.Perm.refl _,
     [RunEvt.scheduledDone, RunEvt.inQueueDone, RunEvt.startedDone],
     [RunEvt.completedDone 1, RunEvt.completedDone 2],
     by decide, by intro jid; simp⟩).1

/-- Claim C4: each of `getProject`, `getAllJobs`, `getAllJobTemplates` and
`getRuns` memoizes its result: a first call with the backing field null
issues the remote fetch and stores the (returned) result in that field; a
call with the field non-null returns the stored value unchanged with no
remote fetch; and calling a getter twice equals calling it once — the
second call leaves the state unchanged, returns the first call's value and
issues no fetch. -/
theorem C4_getters_memoize (s : GState) (srv : Server) :
    (s.data.project = none →
      getProject s srv
        = ({ s with data :=
              { s.data with
                  project := some (srv.projectOf s.data.projectId) } },
           srv.projectOf s.data.projectId,
           [projectGetCall s.data.projectId]))
    ∧ (∀ pr, s.data.project = some pr → getProject s srv = (s, pr, []))
    ∧ getProject (getProject s srv).1 srv
        = ((getProject s srv).1, (getProject s srv).2.1, [])
    ∧ (s.data.jobs = none →
      getAllJobs s srv
        = ({ s with data :=
              { s.data with jobs := some (srv.jobsOf s.data.projectId) } },
           srv.jobsOf s.data.projectId,
           [jobAllCall s.data.projectId true]))
    ∧ (∀ js, s.data.jobs = some js → getAllJobs s srv = (s, js, []))
    ∧ getAllJobs (getAllJobs s srv).1 srv
        = ((getAllJobs s srv).1, (getAllJobs s srv).2.1, [])
    ∧ (s.data.jobTemplates = none →
      getAllJobTemplates s srv
        = ({ s with data :=
              { s.data with
                  jobTemplates := some (srv.templatesOf s.data.projectId) } },
           srv.templatesOf s.data.projectId,
           [jobTemplateAllCall s.data.projectId false]))
    ∧ (∀ ts, s.data.jobTemplates = some ts →
        getAllJobTemplates s srv = (s, ts, []))
    ∧ getAllJobTemplates (getAllJobTemplates s srv).1 srv
        = ((getAllJobTemplates s srv).1, (getAllJobTemplates s srv).2.1, [])
    ∧ (s.data.runs = none →
      getRunsStart s srv
        = ({ s with data := { s.data with runs := some [] } }, [],
           [runAllCall scheduledState s.data.projectId,
            runAllCall inQueueState s.data.projectId,
            runAllCall startedState s.data.projectId,
            jobAllCall s.data.projectId true]))
    ∧ (∀ rs, s.data.runs = some rs → getRunsStart s srv = (s, rs, []))
    ∧ getRunsStart (getRunsStart s srv).1 srv
        = ((getRunsStart s srv).1, (getRunsStart s srv).2.1, []) := by
  refine ⟨?_, ?_, ?_, ?_, ?_, ?_, ?_, ?_, ?_, ?_, ?_, ?_⟩
  · intro h
    simp [getProject, h]
  · intro pr h
    simp [getProject, h]
  · cases h : s.data.project <;> simp [getProject, h]
  · intro h
    simp [getAllJobs, h]
  · intro js h
    simp [getAllJobs, h]
  · cases h : s.data.jobs <;> simp [getAllJobs, h]
  · intro h
    simp [getAllJobTemplates, h]
  · intro ts h
    simp [getAllJobTemplates, h]
  · cases h : s.data.jobTemplates <;> simp [getAllJobTemplates, h]
  · intro h
    simp [getRunsStart, h]
  · intro rs h
    simp [getRunsStart, h]
  · cases h : s.data.runs <;> simp [getRunsStart, h]

/-- Witness for C4: a first `getProject` call on a concrete cold state
fetches and stores the project. -/
theorem C4_witness :
    getProject runsStartState witnessServer
      = ({ runsStartState with data :=
            { runsStartState.data with
                project := some (witnessServer.projectOf
                  runsStartState.data.projectId) } },
         witnessServer.projectOf runsStartState.data.projectId,
         [projectGetCall runsStartState.data.projectId]) :=
  (C4_getters_memoize runsStartState witnessServer).1 (by decide)

/-- Claim C7: the route configuration registers exactly three URL
patterns mapping to two controllers and two templates:
`/project/:project/runs/` to `RunsCtrl` with the runs template, and both
`/project/:project/jobs/` and `/project/:project/jobs/:job/` to
`JobListCtrl` with the job-list template. -/
theorem C7_route_table :
    routeTable.length = 3
    ∧ routeTable.map (fun e => (e.pattern, e.controller, e.templateUrl))
        = [(runsPattern, runsCtrlName, runsTemplateUrl),
           (jobsPattern, jobListCtrlName, jobListTemplateUrl),
           (jobDetailPattern, jobListCtrlName, jobListTemplateUrl)]
    ∧ (routeTable.map RouteEntry.controller).dedup
        = [runsCtrlName, jobListCtrlName]
    ∧ (routeTable.map RouteEntry.templateUrl).dedup
        = [runsTemplateUrl, jobListTemplateUrl] := by
  refine ⟨rfl, rfl, ?_, ?_⟩ <;> decide

/-- Claim C8: no operation of `globalState` or `dtformat` has an error
branch, retry, or failure path: every call site registers no error
callback, each invocation issues every remote query at most once (the
per-job completed queries are distinct when job ids are, which the
hypothesis states), and the `dtformat` functions are total, returning a
value exactly when their null-guards pass. -/
theorem C8_no_error_paths (s : GState) (p : PId) (srv : Server)
    (hids : ((srv.jobsOf s.data.projectId).map Job.id).Nodup) :
    (setProjectId s p).2 = []
    ∧ (∀ c ∈ callsOf (initializeProject s p srv).1, c.hasErrorCb = false)
    ∧ ((callsOf (initializeProject s p srv).1).map Call.req).Nodup
    ∧ (∀ c ∈ (getProject s srv).2.2, c.hasErrorCb = false)
    ∧ ((getProject s srv).2.2.map Call.req).Nodup
    ∧ (∀ c ∈ (getAllJobs s srv).2.2, c.hasErrorCb = false)
    ∧ ((getAllJobs s srv).2.2.map Call.req).Nodup
    ∧ (∀ c ∈ (getAllJobTemplates s srv).2.2, c.hasErrorCb = false)
    ∧ ((getAllJobTemplates s srv).2.2.map Call.req).Nodup
    ∧ (∀ c ∈ getRunsCalls s srv, c.hasErrorCb = false)
    ∧ ((getRunsCalls s srv).map Call.req).Nodup
    ∧ (∀ a b : Option Int,
        (formatDuration a b).isSome = (a.isSome && b.isSome))
    ∧ (∀ a b : Option Int,
        (getDurationInSec a b).isSome = (a.isSome && b.isSome))
    ∧ (∀ a : Option Int, (formatDateTime a).isSome = a.isSome) := by
  have hreq : Function.Injective
      (fun i => Req.runQuery i 1 completedState) := by
    intro x y hxy
    simpa using hxy
  refine ⟨?_, ?_, ?_, ?_, ?_, ?_, ?_, ?_, ?_, ?_, ?_, ?_, ?_, ?_⟩
  · cases hg : needsReset s.data.projectId p <;> simp [setProjectId, hg]
  · cases hg : needsReset s.data.projectId p
    · simp [initializeProject, hg, callsOf]
    · rw [initializeProject_spec s p srv hg]
      simp [callsOf_initTrace, jobAllCall, jobTemplateAllCall,
        workerAllCall]
  · cases hg : needsReset s.data.projectId p
    · simp [initializeProject, hg, callsOf]
    · rw [initializeProject_spec s p srv hg]
      simp [callsOf_initTrace, jobAllCall, jobTemplateAllCall,
        workerAllCall]
  · cases h : s.data.project <;> simp [getProject, h, projectGetCall]
  · cases h : s.data.project <;> simp [getProject, h]
  · cases h : s.data.jobs <;> simp [getAllJobs, h, jobAllCall]
  · cases h : s.data.jobs <;> simp [getAllJobs, h]
  · cases h : s.data.jobTemplates <;>
      simp [getAllJobTemplates, h, jobTemplateAllCall]
  · cases h : s.data.jobTemplates <;> simp [getAllJobTemplates, h]
  · cases h : s.data.runs <;>
      simp [getRunsCalls, h, getRunsStart, getRunsSpawnedCalls,
        runAllCall, jobAllCall, runQueryCall]
  · have hh := hids.map hreq
    rw [List.map_map] at hh
    cases h : s.data.runs <;>
      simp [getRunsCalls, h, getRunsStart, getRunsSpawnedCalls,
        runAllCall, jobAllCall, runQueryCall, List.map_map,
        List.nodup_cons, scheduledState, inQueueState, startedState,
        Function.comp]
    · simpa [Function.comp] using hh
  · intro a b
    cases a <;> cases b <;> rfl
  · intro a b
    cases a <;> cases b <;> rfl
  · intro a
    cases a <;> rfl

/-- Witness for C8 on concrete inputs with distinct job ids. -/
theorem C8_witness :
    (setProjectId runsStartState pidTwo).2 = [] :=
  (C8_no_error_paths runsStartState pidTwo witnessServer (by decide)).1

end JobRunner
